import Mathlib

/-!
Verification of the typed-input validation and retry engine of the
`CodeHSConsole` class (`src/console/console.js`), together with its
output-buffer operations.

Modelling conventions (shallow embedding of the JavaScript source):

* JavaScript values flowing through the retry loop are modelled by the
  inductive type `JsValue`: the `null` reference, the floating-point
  `NaN` sentinel, finite numbers, and booleans.  Finite JS numbers are
  modelled as exact rationals; IEEE-754 rounding is not modelled (none
  of the strings considered here is affected by rounding, and the
  `Infinity` literal of `parseFloat` is likewise out of scope).
* The prompt gateway (`this.promptHandler`, reached through
  `readLinePrivate`) is modelled as a function `Nat → String → Option String`
  taking the 0-based invocation index and the prompt text, and returning
  `some line` for a user-entered string or `none` for the cancellation
  marker (JS `null`).  The invocation index lets a model gateway give a
  canned sequence of answers, matching a stateful test gateway.
  `readLinePrivate(promptString)` declares a single parameter and passes
  exactly `promptString` to the handler, so the extra `!looping`
  argument at the call site inside `readNumber` is discarded before it
  reaches the gateway and is not modelled.
* Each public method taking `arguments.length` into account is modelled
  on an explicit argument list `List String`, so that arity violations
  (`throw new Error(...)`, modelled as `Except.error` with the exact
  message) can be expressed.
-/

/-- JavaScript values that occur in the console code: the `null`
reference, the `NaN` number, finite numbers (modelled as exact
rationals) and booleans. -/
inductive JsValue where
  | null : JsValue
  | nan : JsValue
  | num : ℚ → JsValue
  | bool : Bool → JsValue
deriving DecidableEq, Repr

/-- JS `isNaN(v)` for the values that occur here: `isNaN(NaN)` is
`true`; `isNaN(null)` is `false` (since `ToNumber(null) = 0`),
`isNaN(b)` is `false` for booleans (`ToNumber` gives `0`/`1`), and
finite numbers are not `NaN`. -/
def jsIsNaN : JsValue → Bool
  | JsValue.nan => true
  | _ => false

/-- JS loose equality `==` restricted to the operands that occur in the
`readInt` strategy (`resultInt == resultFloat`): both operands are
numbers or `NaN`, `NaN` compares unequal to everything, and two finite
numbers compare by numeric value. -/
def jsLooseEqNum : JsValue → JsValue → Bool
  | JsValue.num a, JsValue.num b => a = b
  | _, _ => false

/-- Leading-whitespace trimming performed by `parseInt`/`parseFloat`.
Modelled over the ASCII whitespace characters recognised by
`Char.isWhitespace` (space, tab, carriage return, line feed); the
exotic Unicode whitespace of the full ECMAScript class is out of
scope. -/
def jsTrimLeading (l : List Char) : List Char :=
  l.dropWhile Char.isWhitespace

/-- Optional single sign character of a JS numeric literal.  Returns
whether the value is negated, and the remaining characters. -/
def readSign : List Char → Bool × List Char
  | '-' :: rest => (true, rest)
  | '+' :: rest => (false, rest)
  | l => (false, l)

/-- Numeric value of a list of decimal digit characters. -/
def decDigitsVal (ds : List Char) : ℕ :=
  ds.foldl (fun a c => 10 * a + (c.toNat - 48)) 0

/-- Whether a character is a hexadecimal digit. -/
def isHexDigitChar (c : Char) : Bool :=
  c.isDigit || ('a' ≤ c && c ≤ 'f') || ('A' ≤ c && c ≤ 'F')

/-- Numeric value of one hexadecimal digit character. -/
def hexDigitVal (c : Char) : ℕ :=
  if c.isDigit then c.toNat - 48
  else if 'a' ≤ c && c ≤ 'f' then c.toNat - 87
  else c.toNat - 55

/-- Numeric value of a list of hexadecimal digit characters. -/
def hexDigitsVal (ds : List Char) : ℕ :=
  ds.foldl (fun a c => 16 * a + hexDigitVal c) 0

/-- ECMAScript `parseInt(string)` with the radix argument absent, as
called by the source: trim leading whitespace, read an optional sign,
detect a `0x`/`0X` prefix (hexadecimal), then take the longest prefix
of digits of the radix; an empty digit prefix gives `NaN`, trailing
characters beyond the digit prefix are ignored. -/
def jsParseInt (s : String) : JsValue :=
  let l := jsTrimLeading s.data
  let sl := readSign l
  let signedVal : ℕ → JsValue := fun n =>
    JsValue.num ((if sl.1 then -(n : ℤ) else (n : ℤ) : ℤ) : ℚ)
  match sl.2 with
  | '0' :: c :: rest =>
    if c = 'x' ∨ c = 'X' then
      let ds := rest.takeWhile isHexDigitChar
      if ds.isEmpty then JsValue.nan else signedVal (hexDigitsVal ds)
    else
      let ds := (('0' : Char) :: c :: rest).takeWhile Char.isDigit
      if ds.isEmpty then JsValue.nan else signedVal (decDigitsVal ds)
  | l2 =>
    let ds := l2.takeWhile Char.isDigit
    if ds.isEmpty then JsValue.nan else signedVal (decDigitsVal ds)

/-- ECMAScript `parseFloat(string)` on finite decimal literals: trim
leading whitespace, read an optional sign, then the longest prefix of
the form `digits [. digits] [e|E [sign] digits]` (also `. digits` with
no integer part); if neither an integer part nor a fraction digit is
present the result is `NaN`, and trailing characters beyond the parsed
prefix are ignored.  The `Infinity` literal is not modelled (no string
considered by the specification involves it).

The mathematical value `intPart.fracPart * 10 ^ e` (negated under a
leading minus sign) is built as the exact rational `m * 10 ^ (e - k)`
where `m` is the integer formed by the digits of `intPart ++ fracPart`
and `k = fracPart.length`: an integer when `e ≥ k`, and the normalised
fraction `m / 10 ^ (k - e)` otherwise (built with `Rat.normalize`,
which is definitionally computable, rather than with the irreducible
field operations on `ℚ`). -/
def jsParseFloat (s : String) : JsValue :=
  let l := jsTrimLeading s.data
  let sl := readSign l
  let intPart := sl.2.takeWhile Char.isDigit
  let l2 := sl.2.dropWhile Char.isDigit
  let fracAndRest : List Char × List Char :=
    match l2 with
    | '.' :: rest => (rest.takeWhile Char.isDigit, rest.dropWhile Char.isDigit)
    | _ => ([], l2)
  let fracPart := fracAndRest.1
  if intPart.isEmpty && fracPart.isEmpty then JsValue.nan
  else
    let e : ℤ :=
      match fracAndRest.2 with
      | c :: rest =>
        if c = 'e' ∨ c = 'E' then
          let esl := readSign rest
          let eds := esl.2.takeWhile Char.isDigit
          if eds.isEmpty then 0
          else if esl.1 then -(decDigitsVal eds : ℤ) else (decDigitsVal eds : ℤ)
        else 0
      | [] => 0
    let mAbs : ℤ := (decDigitsVal (intPart ++ fracPart) : ℤ)
    let m : ℤ := if sl.1 then -mAbs else mAbs
    let t : ℤ := e - (fracPart.length : ℤ)
    if 0 ≤ t then JsValue.num ((m * (10 : ℤ) ^ t.toNat : ℤ) : ℚ)
    else JsValue.num (Rat.normalize m ((10 : ℕ) ^ (-t).toNat) (pow_ne_zero _ (by decide)))

/-! ### Parsing strategies

Each strategy models the `parseFn` argument that the corresponding
public method passes to `readNumber`.  Inside the loop `parseFn` is
applied to the gateway response after the cancellation check, so it
only ever receives an actual string; the strategies are nevertheless
defined on `Option String` because the `readBoolean` lambda in the
source contains an explicit `line === null` branch whose
(un)reachability is one of the verified properties. -/

/-- The anonymous `parseFn` passed by `readInt` (lines 220-228 of
`console.js`): parse the argument with `parseInt` and with
`parseFloat`; if the two results compare equal under `==`, return the
`parseInt` result, else `NaN`.  On the `null` reference (never actually
supplied by the loop) both parses give `NaN` and `NaN == NaN` is false,
so the result is `NaN`. -/
def readIntLambda : Option String → JsValue
  | none => JsValue.nan
  | some x =>
    let resultInt := jsParseInt x
    let resultFloat := jsParseFloat x
    if jsLooseEqNum resultInt resultFloat then resultInt else JsValue.nan

/-- The `parseFn` passed by `readFloat` (line 243 of `console.js`),
namely `parseFloat` itself.  On the `null` reference (never actually
supplied by the loop) `parseFloat` stringifies its argument to
`"null"`, which parses to `NaN`. -/
def readFloatLambda : Option String → JsValue
  | none => JsValue.nan
  | some x => jsParseFloat x

/-- Model of `String.prototype.toLowerCase` restricted to ASCII case
mapping (`Char.toLower` lowers exactly the letters `A`-`Z`); the
Unicode-wide case mapping of JS is out of scope, and every string the
specification considers is ASCII. -/
def jsToLowerCase (s : String) : String :=
  String.mk (s.data.map Char.toLower)

/-- The anonymous `parseFn` passed by `readBoolean` (lines 190-202 of
`console.js`): an explicit `line === null` check returning `NaN`, then
case-insensitive comparison of the lowercased line against the
synonyms `true`/`yes` and `false`/`no`; anything else is `NaN`. -/
def readBooleanLambda : Option String → JsValue
  | none => JsValue.nan
  | some line =>
    let line := jsToLowerCase line
    if line = "true" ∨ line = "yes" then JsValue.bool true
    else if line = "false" ∨ line = "no" then JsValue.bool false
    else JsValue.nan

/-! ### The retry loop (`readNumber`) -/

/-- One console prompt gateway: given the 0-based index of the
invocation and the prompt text, produce the raw response — `some line`
for a user-entered string, `none` for the cancellation marker (JS
`null`). -/
abbrev Gateway : Type := Nat → String → Option String

/-- The body of the `while (true)` loop of `readNumber` (lines 142-163
of `console.js`), parameterised by the loop-carried state: the current
prompt text, the number `idx` of gateway invocations already made, and
`loopCount`.  Each iteration invokes the gateway once; `none`
(cancellation) returns `null` at once; otherwise `parseFn` is applied
to the response (necessarily a `some`), a non-`NaN` result is returned,
the dead `result === null` check returns the default `0` (unreachable,
since `isNaN(null)` is false and the previous branch would already have
returned), the guard `loopCount > INFINITE_LOOP_CHECK` (= 100) returns
the default `0`, and otherwise the prompt is rewritten with the error
notice and the loop repeats with `loopCount + 1`.  The returned `Nat`
is the total number of gateway invocations performed. -/
def readNumberGo (gw : Gateway) (parseFn : Option String → JsValue)
    (str errorMsgType promptText : String) (idx loopCount : Nat) : JsValue × Nat :=
  match gw idx promptText with
  | none => (JsValue.null, idx + 1)
  | some line =>
    let result := parseFn (some line)
    if jsIsNaN result = false then (result, idx + 1)
    else if result = JsValue.null then (JsValue.num 0, idx + 1)
    else if h : loopCount > 100 then (JsValue.num 0, idx + 1)
    else
      readNumberGo gw parseFn str errorMsgType
        ("That was not " ++ errorMsgType ++ ". Please try again. " ++ str)
        (idx + 1) (loopCount + 1)
termination_by 101 - loopCount
decreasing_by simp_wf; omega

/-- The private `readNumber(str, parseFn, errorMsgType)` method:
run the retry loop starting from the original prompt text with
`loopCount = 0` and no gateway invocations made.  Returns the JS value
produced (`null` for cancellation, the parsed value, or the default
`0`) together with the total number of gateway invocations. -/
def readNumber (gw : Gateway) (str : String) (parseFn : Option String → JsValue)
    (errorMsgType : String) : JsValue × Nat :=
  readNumberGo gw parseFn str errorMsgType str 0 0

/-! ### Session state and the output buffer -/

/-- State owned by one `CodeHSConsole` instance: `internalOutput` is
the array of captured entries and `internalOutputBuffer` the pending
unterminated text, both initialised empty by the constructor. -/
structure ConsoleState where
  internalOutput : List String
  internalOutputBuffer : String
deriving DecidableEq, Repr

/-- The state produced by the constructor: both buffers empty. -/
def initialConsole : ConsoleState := ⟨[], ""⟩

/-- Model of the JS `String.prototype.split` with separator `'\n'`:
cut the character list at every newline.  The result is never empty
(splitting the empty string gives `[""]`). -/
def splitLines : List Char → List (List Char)
  | [] => [[]]
  | c :: rest =>
    let r := splitLines rest
    if c = '\n' then [] :: r
    else
      match r with
      | h :: t => (c :: h) :: t
      | [] => [[c]]

/-- The `bufferedOutputToArray` method (lines 36-43 of `console.js`):
split the buffered output on newlines and remove the trailing empty
string produced when the final character is a newline. -/
def bufferedOutputToArray (bufferedOutput : String) : List String :=
  let bufferedOutputArray := (splitLines bufferedOutput.data).map (fun l => String.mk l)
  match bufferedOutputArray.getLast? with
  | some last => if last.length = 0 then bufferedOutputArray.dropLast else bufferedOutputArray
  | none => bufferedOutputArray

/-- The `quietPrint` method: append the string to the internal output
buffer.  The lazy re-initialisation `if (!this.internalOutputBuffer)`
in the source only replaces a falsy value (the empty string) by an
empty string again and is a no-op in this model, where the buffer is always a string. -/
def quietPrint (str : String) (s : ConsoleState) : ConsoleState :=
  { s with internalOutputBuffer := s.internalOutputBuffer ++ str }

/-- The `quietPrintln` method: `quietPrint` of the argument followed by
a newline. -/
def quietPrintln (anything : String) (s : ConsoleState) : ConsoleState :=
  quietPrint (anything ++ "\n") s

/-- The `flushQuietOutput` method (lines 65-76 of `console.js`),
including the scoping slip on line 72: the call
`bufferedOutputToArray(this.internalOutputBuffer)` names
`bufferedOutputToArray` without `this.`; a class method is not a
lexical binding and the module defines no top-level name of that
form, so in the strict-mode ES module every call evaluates the
unresolvable identifier and throws
`ReferenceError: bufferedOutputToArray is not defined`.  The two lazy
re-initialisation checks that precede it are no-ops (an array is
always truthy in JS, and a falsy buffer is already the empty string),
and the assignments on lines 73-74 are never reached, so the state is
returned unchanged alongside the thrown error. -/
def flushQuietOutput (s : ConsoleState) :
    Except String (List String) × ConsoleState :=
  (Except.error "ReferenceError: bufferedOutputToArray is not defined", s)

/-- The `clear` method: discard both buffers. -/
def clear (_s : ConsoleState) : ConsoleState := ⟨[], ""⟩

/-! ### Public methods with their arity checks

Each public method is modelled on the explicit JS argument list
(`arguments`), so that the `arguments.length` checks can be expressed.
The result triple/pair records the outcome (`Except.error` with the
exact thrown message for an arity violation), the resulting session
state, and the list of strings passed to the live-display sink
(`this.printHandler`); for the read methods the `Nat` component is the
number of prompt-gateway invocations performed. -/

/-- The `print` method (lines 100-106 of `console.js`): with exactly
one argument, push it verbatim onto `internalOutput` and hand it to the
live-display sink; otherwise throw. -/
def printCall (args : List String) (s : ConsoleState) :
    Except String Unit × ConsoleState × List String :=
  match args with
  | [ln] => (Except.ok (), { s with internalOutput := s.internalOutput ++ [ln] }, [ln])
  | _ => (Except.error "You should pass exactly 1 argument to print", s, [])

/-- The `println` method (lines 112-120 of `console.js`), translated
branch for branch: with zero arguments the source sets `ln` to the
empty string and
falls off the end of the method (the `print` call lives in the final
`else` branch, so nothing is printed); with more than one argument it
throws; with exactly one argument it delegates to
`print(ln + newline)`. -/
def printlnCall (args : List String) (s : ConsoleState) :
    Except String Unit × ConsoleState × List String :=
  match args with
  | [] => (Except.ok (), s, [])
  | [ln] => printCall [ln ++ "\n"] s
  | _ => (Except.error "You should pass exactly 1 argument to println", s, [])

/-- The `readLine` method: arity check, then a single gateway
round-trip with the given prompt (the constant `false` second argument
of `readLinePrivate` is discarded by that method). -/
def readLineCall (args : List String) (gw : Gateway) :
    Except String (Option String) × Nat :=
  match args with
  | [str] => (Except.ok (gw 0 str), 1)
  | _ => (Except.error "You should pass exactly 1 argument to readLine", 0)

/-- The `readInt` method: arity check, then `readNumber` with the
integer strategy and the error label `an integer`. -/
def readIntCall (args : List String) (gw : Gateway) : Except String JsValue × Nat :=
  match args with
  | [str] =>
    let r := readNumber gw str readIntLambda "an integer"
    (Except.ok r.1, r.2)
  | _ => (Except.error "You should pass exactly 1 argument to readInt", 0)

/-- The `readFloat` method: arity check, then `readNumber` with
`parseFloat` and the error label `a float`. -/
def readFloatCall (args : List String) (gw : Gateway) : Except String JsValue × Nat :=
  match args with
  | [str] =>
    let r := readNumber gw str readFloatLambda "a float"
    (Except.ok r.1, r.2)
  | _ => (Except.error "You should pass exactly 1 argument to readFloat", 0)

/-- The `readBoolean` method: arity check, then `readNumber` with the
boolean-synonym strategy and the error label
`a boolean (true/false)`. -/
def readBooleanCall (args : List String) (gw : Gateway) : Except String JsValue × Nat :=
  match args with
  | [str] =>
    let r := readNumber gw str readBooleanLambda "a boolean (true/false)"
    (Except.ok r.1, r.2)
  | _ => (Except.error "You should pass exactly 1 argument to readBoolean", 0)

/-! ### Helper lemmas about the retry loop -/

/-- If the gateway cancels at the current invocation, the loop returns
`null` immediately, having made exactly one further invocation. -/
lemma readNumberGo_cancel (gw : Gateway) (pf : Option String → JsValue)
    (str e p : String) (idx lc : Nat) (h : gw idx p = none) :
    readNumberGo gw pf str e p idx lc = (JsValue.null, idx + 1) := by
  rw [readNumberGo.eq_def, h]

/-- If every gateway response is a string that the strategy rejects,
the loop runs until the `loopCount > 100` guard fires: starting from
`loopCount = lc ≤ 101` it performs `102 - lc` further invocations and
returns the default `0`. -/
lemma readNumberGo_exhaust (gw : Gateway) (pf : Option String → JsValue) (str e : String)
    (H : ∀ i p, ∃ s, gw i p = some s ∧ pf (some s) = JsValue.nan) :
    ∀ n idx lc p, 101 - lc = n → lc ≤ 101 →
      readNumberGo gw pf str e p idx lc = (JsValue.num 0, idx + (102 - lc)) := by
  intro n
  induction n with
  | zero =>
    intro idx lc p hn hle
    have hlc : lc = 101 := by omega
    subst hlc
    obtain ⟨s, hs, hnan⟩ := H idx p
    rw [readNumberGo.eq_def, hs]
    simp [hnan, jsIsNaN]
  | succ n ih =>
    intro idx lc p hn _hle
    have h100 : ¬ lc > 100 := by omega
    obtain ⟨s, hs, hnan⟩ := H idx p
    rw [readNumberGo.eq_def, hs]
    simp only [hnan, jsIsNaN, Bool.true_eq_false, if_false, reduceCtorEq, dif_neg h100]
    rw [ih (idx + 1) (lc + 1) _ (by omega) (by omega)]
    congr 1
    omega

/-- Two strategies that agree on every actual string produce the same
loop behaviour from any loop state: the strategy is never consulted on
the cancellation marker. -/
lemma readNumberGo_congr (gw : Gateway) (pf pf' : Option String → JsValue)
    (str e : String) (h : ∀ s, pf (some s) = pf' (some s)) :
    ∀ n idx lc p, 101 - lc = n →
      readNumberGo gw pf str e p idx lc = readNumberGo gw pf' str e p idx lc := by
  intro n
  induction n with
  | zero =>
    intro idx lc p hn
    have hlc : lc > 100 := by omega
    conv_lhs => rw [readNumberGo.eq_def]
    conv_rhs => rw [readNumberGo.eq_def]
    cases hgw : gw idx p with
    | none => rfl
    | some line =>
      simp only [h line, dif_pos hlc]
  | succ n ih =>
    intro idx lc p hn
    conv_lhs => rw [readNumberGo.eq_def]
    conv_rhs => rw [readNumberGo.eq_def]
    cases hgw : gw idx p with
    | none => rfl
    | some line =>
      simp only [h line]
      rw [ih (idx + 1) (lc + 1) _ (by omega)]

/-! ### Helper lemmas about the parsing strategies -/

/-- A true `==` comparison in the `readInt` strategy forces both
operands to be the same finite number. -/
lemma jsLooseEqNum_eq {u v : JsValue} (h : jsLooseEqNum u v = true) :
    ∃ q : ℚ, u = JsValue.num q ∧ v = JsValue.num q := by
  cases u <;> cases v <;> simp [jsLooseEqNum] at h
  case num.num a b => exact ⟨a, rfl, by rw [h]⟩

/-- Every finite number produced by `jsParseInt` is an integer. -/
lemma jsParseInt_int (s : String) (q : ℚ) (h : jsParseInt s = JsValue.num q) :
    ∃ n : ℤ, q = (n : ℚ) := by
  simp only [jsParseInt] at h
  split at h
  · split at h
    · split at h
      · exact absurd h (by simp)
      · exact ⟨_, by injection h with h2; exact h2.symm⟩
    · split at h
      · exact absurd h (by simp)
      · exact ⟨_, by injection h with h2; exact h2.symm⟩
  · split at h
    · exact absurd h (by simp)
    · exact ⟨_, by injection h with h2; exact h2.symm⟩

/-- `jsParseFloat` only ever produces a finite number or `NaN`. -/
lemma jsParseFloat_num_or_nan (s : String) :
    (∃ q : ℚ, jsParseFloat s = JsValue.num q) ∨ jsParseFloat s = JsValue.nan := by
  simp only [jsParseFloat]
  split
  · exact Or.inr rfl
  · split
    · exact Or.inl ⟨_, rfl⟩
    · exact Or.inl ⟨_, rfl⟩

/-- The integer strategy only ever produces a finite number or `NaN`
on an actual string. -/
lemma readIntLambda_num_or_nan (s : String) :
    (∃ q : ℚ, readIntLambda (some s) = JsValue.num q) ∨
      readIntLambda (some s) = JsValue.nan := by
  by_cases h : jsLooseEqNum (jsParseInt s) (jsParseFloat s) = true
  · obtain ⟨q, h1, _⟩ := jsLooseEqNum_eq h
    refine Or.inl ⟨q, ?_⟩
    simp only [readIntLambda]
    rw [if_pos h]
    exact h1
  · exact Or.inr (by simp [readIntLambda, h])

/-- The boolean strategy only ever produces `true`, `false` or `NaN`
on an actual string. -/
lemma readBooleanLambda_total (s : String) :
    readBooleanLambda (some s) = JsValue.bool true ∨
      readBooleanLambda (some s) = JsValue.bool false ∨
      readBooleanLambda (some s) = JsValue.nan := by
  simp only [readBooleanLambda]
  split
  · exact Or.inl rfl
  · split
    · exact Or.inr (Or.inl rfl)
    · exact Or.inr (Or.inr rfl)

/-! ### Claim theorems -/

/-- C1 (counterexample): with a gateway that answers `"abc"` on every
invocation, `readInt` invokes the gateway 102 times, not the 101 times
the claim states. -/
theorem C1_counterexample :
    (readIntCall ["x"] (fun _ _ => some "abc")).2 = 102 ∧ (102 : Nat) ≠ 101 := by
  have h := readNumberGo_exhaust (fun _ _ => some "abc") readIntLambda "x" "an integer"
    (fun _i _p => ⟨"abc", rfl, by decide⟩) 101 0 0 "x" rfl (by omega)
  exact ⟨by simp only [readIntCall, readNumber, h], by decide⟩

/-- C1 (amended): for a prompt gateway that returns the unparseable
string `"abc"` on every invocation, `readInt` returns the default
value `0` after exactly 102 attempts (1 initial attempt plus 101
retries): the gateway is invoked exactly 102 times and never more. -/
theorem C1_retry_exhaustion (gw : Gateway) (str : String)
    (h : ∀ i p, gw i p = some "abc") :
    readIntCall [str] gw = (Except.ok (JsValue.num 0), 102) := by
  have h2 := readNumberGo_exhaust gw readIntLambda str "an integer"
    (fun i p => ⟨"abc", h i p, by decide⟩) 101 0 0 str rfl (by omega)
  simp only [readIntCall, readNumber, h2]

/-- C1 witness: the amended theorem applied to the constant `"abc"`
gateway. -/
theorem C1_witness :
    readIntCall ["x"] (fun _ _ => some "abc") = (Except.ok (JsValue.num 0), 102) :=
  C1_retry_exhaustion (fun _ _ => some "abc") "x" (fun _ _ => rfl)

/-- C2: if the gateway returns the cancellation marker on the first
call, each typed read returns `null` with exactly one gateway
invocation; moreover this holds for `readNumber` with an arbitrary
parsing strategy and error label, so no parsing-strategy application
and no default substitution takes place. -/
theorem C2_cancellation_short_circuits (gw : Gateway) (str : String)
    (h : gw 0 str = none) :
    readIntCall [str] gw = (Except.ok JsValue.null, 1) ∧
    readFloatCall [str] gw = (Except.ok JsValue.null, 1) ∧
    readBooleanCall [str] gw = (Except.ok JsValue.null, 1) ∧
    ∀ (pf : Option String → JsValue) (e : String),
      readNumber gw str pf e = (JsValue.null, 1) := by
  have hc : ∀ (pf : Option String → JsValue) (e : String),
      readNumber gw str pf e = (JsValue.null, 1) :=
    fun pf e => readNumberGo_cancel gw pf str e str 0 0 h
  refine ⟨?_, ?_, ?_, hc⟩ <;>
    simp only [readIntCall, readFloatCall, readBooleanCall, hc]

/-- C2 witness: the theorem applied to the always-cancelling
gateway. -/
theorem C2_witness :
    readIntCall ["q"] (fun _ _ => none) = (Except.ok JsValue.null, 1) :=
  (C2_cancellation_short_circuits (fun _ _ => none) "q" rfl).1

/-- C3: evaluating the code at the failing input: after
`print("a\nb\n")` the call `flushQuietOutput()` throws
`ReferenceError` (line 72 of the source names `bufferedOutputToArray`
without `this.`, an unresolved identifier in the strict-mode module)
with the session state unchanged, instead of returning a line history.
The intended callee `bufferedOutputToArray` itself does split exactly
as the claim describes — `"a\nb\n"` and `"a\nb"` (unterminated
fragment preserved) both map to `["a","b"]` — while `print` records
its argument verbatim as one `internalOutput` entry and leaves the
newline-split buffer empty. -/
theorem C3_flush_throws_reference_error :
    flushQuietOutput (printCall ["a\nb\n"] initialConsole).2.1 =
      (Except.error "ReferenceError: bufferedOutputToArray is not defined",
        { internalOutput := ["a\nb\n"], internalOutputBuffer := "" }) ∧
    (printCall ["a\nb\n"] initialConsole).2.1 =
      { internalOutput := ["a\nb\n"], internalOutputBuffer := "" } ∧
    (∀ s : ConsoleState, flushQuietOutput s =
      (Except.error "ReferenceError: bufferedOutputToArray is not defined", s)) ∧
    bufferedOutputToArray "a\nb\n" = ["a", "b"] ∧
    bufferedOutputToArray "a\nb" = ["a", "b"] :=
  ⟨rfl, rfl, fun _s => rfl, by decide, by decide⟩

/-- C4: `println(ln)` with exactly one argument is `print(ln + "\n")`,
and calling `println` with more than one argument throws; but the
zero-argument call `println()` diverges from the claim: the source
assigns the empty string to `ln` and returns without ever calling `print` (the
`print` call sits in the final `else` branch), so nothing is printed,
no sink invocation occurs and the state is unchanged — in particular
it is not equivalent to `print("\n")`. -/
theorem C4_println_zero_args_prints_nothing :
    (∀ (s : ConsoleState) (ln : String),
      printlnCall [ln] s = printCall [ln ++ "\n"] s) ∧
    (∀ s : ConsoleState, printlnCall [] s = (Except.ok (), s, [])) ∧
    printlnCall [] initialConsole ≠ printCall ["\n"] initialConsole ∧
    (∀ (s : ConsoleState) (a b : String) (r : List String),
      printlnCall (a :: b :: r) s =
        (Except.error "You should pass exactly 1 argument to println", s, [])) := by
  refine ⟨fun _s _ln => rfl, fun _s => rfl, ?_, fun _s _a _b _r => rfl⟩
  intro h
  have h2 := congrArg (fun x => x.2.2) h
  simp [printlnCall, printCall] at h2

/-- C5 (counterexample): when every gateway response is the string
`"maybe"`, which the boolean strategy rejects, `readBoolean` exhausts
the retry ceiling and returns the shared numeric default `0`, which is
not the boolean value `false`. -/
theorem C5_counterexample :
    readBooleanCall ["p"] (fun _ _ => some "maybe") = (Except.ok (JsValue.num 0), 102) ∧
    JsValue.num 0 ≠ JsValue.bool false := by
  have h := readNumberGo_exhaust (fun _ _ => some "maybe") readBooleanLambda "p"
    "a boolean (true/false)" (fun _i _p => ⟨"maybe", rfl, by decide⟩) 101 0 0 "p" rfl
    (by omega)
  exact ⟨by simp only [readBooleanCall, readNumber, h], by decide⟩

/-- C5 (amended): when `readBoolean` exhausts the retry ceiling (every
gateway response is a non-cancelled string that the boolean strategy
rejects), it returns the shared numeric default `0` of `readNumber` —
a number, the same `DEFAULT` constant used by the numeric reads — and
not a boolean-typed `false`. -/
theorem C5_exhausted_boolean_numeric_default (gw : Gateway) (p : String)
    (H : ∀ i q, ∃ s, gw i q = some s ∧ readBooleanLambda (some s) = JsValue.nan) :
    readBooleanCall [p] gw = (Except.ok (JsValue.num 0), 102) ∧
    JsValue.num 0 ≠ JsValue.bool false := by
  have h := readNumberGo_exhaust gw readBooleanLambda p "a boolean (true/false)" H
    101 0 0 p rfl (by omega)
  exact ⟨by simp only [readBooleanCall, readNumber, h], by decide⟩

/-- C5 witness: the amended theorem applied to the constant `"maybe"`
gateway. -/
theorem C5_witness :
    readBooleanCall ["w"] (fun _ _ => some "maybe") = (Except.ok (JsValue.num 0), 102) :=
  (C5_exhausted_boolean_numeric_default (fun _ _ => some "maybe") "w"
    (fun _i _q => ⟨"maybe", rfl, by decide⟩)).1

/-- C6: the integer strategy accepts a string exactly when its
`parseInt` and `parseFloat` results are both finite numbers and
numerically equal, in which case it returns the (integral) `parseInt`
result; `"3.5"` is rejected while `"3.0"` is accepted with value 3. -/
theorem C6_int_strategy_double_parse (s : String) (q : ℚ)
    (h1 : jsParseInt s = JsValue.num q) (h2 : jsParseFloat s = JsValue.num q) :
    readIntLambda (some s) = JsValue.num q ∧
    (∃ n : ℤ, q = (n : ℚ)) ∧
    (∀ t : String, readIntLambda (some t) ≠ JsValue.nan →
      ∃ r : ℚ, jsParseInt t = JsValue.num r ∧ jsParseFloat t = JsValue.num r) ∧
    readIntLambda (some "3.5") = JsValue.nan ∧
    readIntLambda (some "3.0") = JsValue.num 3 := by
  refine ⟨?_, jsParseInt_int s q h1, ?_, by decide, by decide⟩
  · have hb : jsLooseEqNum (jsParseInt s) (jsParseFloat s) = true := by
      rw [h1, h2]
      simp [jsLooseEqNum]
    simp only [readIntLambda]
    rw [if_pos hb]
    exact h1
  · intro t ht
    by_cases hb : jsLooseEqNum (jsParseInt t) (jsParseFloat t) = true
    · exact jsLooseEqNum_eq hb
    · exact absurd (by simp only [readIntLambda]; rw [if_neg hb]) ht

/-- C6 witness: the theorem applied to `"3.0"`, whose two parses agree
on the value 3. -/
theorem C6_witness : readIntLambda (some "3.0") = JsValue.num 3 :=
  (C6_int_strategy_double_parse "3.0" 3 (by decide) (by decide)).1

/-- C7 (counterexample): the strategies do accept partial matches: the
integer strategy maps `"3abc"` to the accepted value 3 (both JS parses
ignore the trailing characters and give 3), and the float strategy
accepts `"3.5xyz"`, contradicting the claim that a numeric prefix with
trailing non-numeric characters is classified invalid. -/
theorem C7_counterexample :
    readIntLambda (some "3abc") = JsValue.num 3 ∧
    JsValue.num 3 ≠ JsValue.nan ∧
    readFloatLambda (some "3.5xyz") ≠ JsValue.nan := by
  exact ⟨by decide, by decide, by decide⟩

/-- C7 (amended): every strategy outcome on an actual string is
exactly one of a valid value of the domain type or the unambiguous
invalid marker `NaN`; however, partial matches are accepted rather
than rejected: a string beginning with a numeral followed by trailing
non-numeric characters parses to the value of that numeral under the JS
longest-prefix `parseInt`/`parseFloat` semantics, e.g. `"3abc"` is
accepted as 3 by the integer strategy and `"1.5x"` as 1.5 by the float
strategy. -/
theorem C7_outcome_totality_partial_matches_accepted :
    (∀ s : String,
      (∃ q : ℚ, readFloatLambda (some s) = JsValue.num q) ∨
        readFloatLambda (some s) = JsValue.nan) ∧
    (∀ s : String,
      (∃ q : ℚ, readIntLambda (some s) = JsValue.num q) ∨
        readIntLambda (some s) = JsValue.nan) ∧
    (∀ s : String,
      readBooleanLambda (some s) = JsValue.bool true ∨
        readBooleanLambda (some s) = JsValue.bool false ∨
        readBooleanLambda (some s) = JsValue.nan) ∧
    readIntLambda (some "3abc") = JsValue.num 3 ∧
    readFloatLambda (some "1.5x") = JsValue.num (3 / 2) := by
  refine ⟨fun s => jsParseFloat_num_or_nan s, readIntLambda_num_or_nan,
    readBooleanLambda_total, by decide, ?_⟩
  have h : readFloatLambda (some "1.5x") = JsValue.num (Rat.normalize 15 10 (by decide)) := by
    decide
  rw [h]
  simp only [JsValue.num.injEq, Rat.normalize_eq_mkRat, Rat.mkRat_eq_divInt,
    Rat.divInt_eq_div]
  norm_num

/-- C8: the boolean strategy is case-insensitive and total over its
synonym table: every string lowering to `true` or `yes` is accepted as
`true`, every string lowering to `false` or `no` is accepted as
`false`, and every string lowering to none of the four synonyms —
including `"maybe"`, `"1"` and `"0"` — is invalid. -/
theorem C8_boolean_synonym_table :
    (∀ s : String, jsToLowerCase s = "true" ∨ jsToLowerCase s = "yes" →
      readBooleanLambda (some s) = JsValue.bool true) ∧
    (∀ s : String, jsToLowerCase s = "false" ∨ jsToLowerCase s = "no" →
      readBooleanLambda (some s) = JsValue.bool false) ∧
    (∀ s : String,
      ¬(jsToLowerCase s = "true" ∨ jsToLowerCase s = "yes" ∨
        jsToLowerCase s = "false" ∨ jsToLowerCase s = "no") →
      readBooleanLambda (some s) = JsValue.nan) ∧
    readBooleanLambda (some "true") = JsValue.bool true ∧
    readBooleanLambda (some "TRUE") = JsValue.bool true ∧
    readBooleanLambda (some "yes") = JsValue.bool true ∧
    readBooleanLambda (some "YES") = JsValue.bool true ∧
    readBooleanLambda (some "false") = JsValue.bool false ∧
    readBooleanLambda (some "no") = JsValue.bool false ∧
    readBooleanLambda (some "NO") = JsValue.bool false ∧
    readBooleanLambda (some "maybe") = JsValue.nan ∧
    readBooleanLambda (some "1") = JsValue.nan ∧
    readBooleanLambda (some "0") = JsValue.nan := by
  refine ⟨?_, ?_, ?_, by decide, by decide, by decide, by decide, by decide, by decide,
    by decide, by decide, by decide, by decide⟩
  · intro s hs
    simp only [readBooleanLambda]
    rw [if_pos hs]
  · intro s hs
    have hne : ¬ (jsToLowerCase s = "true" ∨ jsToLowerCase s = "yes") := by
      rcases hs with h | h <;> rw [h] <;> decide
    simp only [readBooleanLambda]
    rw [if_neg hne, if_pos hs]
  · intro s hs
    simp only [not_or] at hs
    obtain ⟨h1, h2, h3, h4⟩ := hs
    simp only [readBooleanLambda]
    rw [if_neg (fun h => h.elim h1 h2), if_neg (fun h => h.elim h3 h4)]

/-- C8 witness: the case-insensitivity clauses applied to `"TrUe"` and
`"No"`, and the universal invalidity clause applied to `"ok"`. -/
theorem C8_witness :
    readBooleanLambda (some "TrUe") = JsValue.bool true ∧
    readBooleanLambda (some "No") = JsValue.bool false ∧
    readBooleanLambda (some "ok") = JsValue.nan :=
  ⟨C8_boolean_synonym_table.1 "TrUe" (Or.inl (by decide)),
    (C8_boolean_synonym_table.2).1 "No" (Or.inr (by decide)),
    (C8_boolean_synonym_table.2).2.1 "ok" (by decide)⟩

/-- C9: every public one-argument method throws its arity error
synchronously when called with the wrong number of arguments — zero
(except for `println`, whose zero-argument form is sanctioned) or two
or more — with the session state unchanged, no string handed to the
live-display sink, and zero prompt-gateway invocations, for every
gateway whatsoever. -/
theorem C9_arity_violations_throw (s : ConsoleState) (a b : String) (r : List String)
    (gw : Gateway) :
    printCall [] s = (Except.error "You should pass exactly 1 argument to print", s, []) ∧
    printCall (a :: b :: r) s =
      (Except.error "You should pass exactly 1 argument to print", s, []) ∧
    printlnCall (a :: b :: r) s =
      (Except.error "You should pass exactly 1 argument to println", s, []) ∧
    readLineCall [] gw = (Except.error "You should pass exactly 1 argument to readLine", 0) ∧
    readLineCall (a :: b :: r) gw =
      (Except.error "You should pass exactly 1 argument to readLine", 0) ∧
    readIntCall [] gw = (Except.error "You should pass exactly 1 argument to readInt", 0) ∧
    readIntCall (a :: b :: r) gw =
      (Except.error "You should pass exactly 1 argument to readInt", 0) ∧
    readFloatCall [] gw = (Except.error "You should pass exactly 1 argument to readFloat", 0) ∧
    readFloatCall (a :: b :: r) gw =
      (Except.error "You should pass exactly 1 argument to readFloat", 0) ∧
    readBooleanCall [] gw =
      (Except.error "You should pass exactly 1 argument to readBoolean", 0) ∧
    readBooleanCall (a :: b :: r) gw =
      (Except.error "You should pass exactly 1 argument to readBoolean", 0) :=
  ⟨rfl, rfl, rfl, rfl, rfl, rfl, rfl, rfl, rfl, rfl, rfl⟩

/-- C10: the cancellation check precedes every application of the
parsing strategy, so the strategy is only ever applied to actual
strings: two strategies agreeing on all strings give identical reads,
and in particular the `line === null` branch inside the `readBoolean`
strategy is unreachable — replacing its result by an arbitrary value
changes nothing. -/
theorem C10_strategy_never_applied_to_null :
    (∀ (gw : Gateway) (str e : String) (pf pf' : Option String → JsValue),
      (∀ s : String, pf (some s) = pf' (some s)) →
      readNumber gw str pf e = readNumber gw str pf' e) ∧
    (∀ (gw : Gateway) (str : String) (v : JsValue),
      readNumber gw str readBooleanLambda "a boolean (true/false)" =
        readNumber gw str
          (fun o =>
            match o with
            | none => v
            | some l => readBooleanLambda (some l))
          "a boolean (true/false)") := by
  constructor
  · intro gw str e pf pf' h
    exact readNumberGo_congr gw pf pf' str e h 101 0 0 str rfl
  · intro gw str v
    exact readNumberGo_congr gw readBooleanLambda
      (fun o =>
        match o with
        | none => v
        | some l => readBooleanLambda (some l))
      str "a boolean (true/false)" (fun _l => rfl) 101 0 0 str rfl

/-- C10 witness: the congruence clause applied to the boolean strategy
and a variant whose `null` branch returns `true` instead, over a
concrete gateway. -/
theorem C10_witness :
    readNumber (fun _ _ => some "yes") "x" readBooleanLambda "a boolean (true/false)" =
      readNumber (fun _ _ => some "yes") "x"
        (fun o =>
          match o with
          | none => JsValue.bool true
          | some l => readBooleanLambda (some l))
        "a boolean (true/false)" :=
  C10_strategy_never_applied_to_null.1 (fun _ _ => some "yes") "x"
    "a boolean (true/false)" readBooleanLambda
    (fun o =>
      match o with
      | none => JsValue.bool true
      | some l => readBooleanLambda (some l))
    (fun _l => rfl)
